import Mathlib

/-!
Shallow embedding of the rate-governed polling and deduplication engine of the
twitter-discord-bot repository (src/free_tier_bot.py, src/twitter_monitor.py),
with theorems checking the natural-language specification against it.

External collaborators (the tweepy client, the HTTP transport, the filesystem)
are modelled as explicit inputs: each fetch outcome, file content and transport
result is a parameter of the embedded function, so the functions are pure and
executable.
-/

namespace TwitterBot

/-! ## Quota ledger (free_tier_bot.py, lines 36-59) -/

/-- The parsed content of `monthly_usage.txt` as the Python code sees it. -/
structure UsageData where
  month : String
  usage : Nat
deriving DecidableEq, Repr

/-- What `open` + `json.load` of `monthly_usage.txt` can produce:
the file is absent (`open` raises `FileNotFoundError`), the file exists but
`json.load` cannot parse it (raises `json.JSONDecodeError`), or the file holds
a well-formed record `{"month": m, "usage": u}` as written by `save_usage`. -/
inductive StoredUsage
  | absent
  | malformed
  | record (month : String) (usage : Nat)
deriving DecidableEq, Repr

/-- `get_monthly_usage` (free_tier_bot.py lines 36-51). The `try` catches only
`FileNotFoundError`; a `json.JSONDecodeError` on malformed content is not
caught and propagates, which we model as `Except.error`. On a month mismatch
the returned record is reset to `{month: current, usage: 0}`. -/
def get_monthly_usage (stored : StoredUsage) (currentMonth : String) :
    Except Unit UsageData :=
  match stored with
  | .absent => .ok ⟨currentMonth, 0⟩
  | .malformed => .error ()
  | .record m u =>
      if m ≠ currentMonth then .ok ⟨currentMonth, 0⟩ else .ok ⟨m, u⟩

/-- `save_usage` (free_tier_bot.py lines 53-59): re-load (and possibly reset)
the usage record, add `tweets_fetched`, and write it back. -/
def save_usage (stored : StoredUsage) (currentMonth : String)
    (tweetsFetched : Nat) : Except Unit StoredUsage :=
  (get_monthly_usage stored currentMonth).map fun d =>
    .record d.month (d.usage + tweetsFetched)

/-! ## Webhook sink wrappers -/

/-- Result of `requests.post` to the webhook: a status code, or a raised
transport exception. -/
abbrev TransportResult := Except Unit Nat

/-- `send_webhook` (free_tier_bot.py lines 162-181): the whole body, including
the POST, sits in a `try`; success is `status_code == 204`, and any exception
is converted to `False`. -/
def send_webhook (transport : TransportResult) : Bool :=
  match transport with
  | .ok status => status == 204
  | .error _ => false

/-- `send_webhook_notification` (twitter_monitor.py lines 218-251): no
`try`/`except` — a transport exception propagates to the caller; otherwise
success is `status_code == 204`. -/
def send_webhook_notification (transport : TransportResult) :
    Except Unit Bool :=
  transport.map (fun status => status == 204)

/-! ## Numeric interpretation of tweet-id strings

Tweet ids are transmitted as strings; `run_monitoring_cycle` compares them
with `int(tweet_id_str) > int(highest_tweet_id)`, i.e. by numeric magnitude.
`strToNat` models Python `int()` on a decimal digit string. -/

def strToNat (s : String) : Nat :=
  s.data.foldl (fun a c => a * 10 + (c.toNat - 48)) 0

/-! ## twitter_monitor.py: items and the per-brand fetch -/

/-- A tweet as returned by the client (`tweet_fields` of the request). -/
structure RawTweet where
  id : String
  text : String
  authorId : Nat
  createdAt : Nat
  likes : Nat
  retweets : Nat
deriving DecidableEq, Repr

/-- A user record from the `includes['users']` side table
(`user_fields` of the request). -/
structure UserRec where
  id : Nat
  username : String
  name : String
  profileImage : String
deriving DecidableEq, Repr

/-- A tweet dict as built by `get_recent_tweets_from_brands`
(twitter_monitor.py lines 139-149). -/
structure Item where
  id : String
  text : String
  url : String
  author : String
  username : String
  createdAt : Nat
  profileImage : String
  likes : Nat
  retweets : Nat
deriving DecidableEq, Repr

/-- The dict lookup `users = {u.id: u}` built from `includes['users']`. -/
def lookupUser (users : List UserRec) (authorId : Nat) : Option UserRec :=
  users.find? (fun u => u.id == authorId)

/-- One appended dict (twitter_monitor.py lines 139-149). -/
def mkItem (u : UserRec) (t : RawTweet) : Item where
  id := t.id
  text := t.text
  url := "https://twitter.com/" ++ u.username ++ "/status/" ++ t.id
  author := u.name
  username := u.username
  createdAt := t.createdAt
  profileImage := u.profileImage
  likes := t.likes
  retweets := t.retweets

/-- A raised fetch exception, by kind: `tweepy.TooManyRequests` (the HTTP 429
signal) or any other exception. `get_recent_tweets_from_brands` has a single
`except Exception` handler, so the two are handled identically there. -/
inductive FetchErr
  | throttled
  | other
deriving DecidableEq, Repr

/-- Outcome of the primary `search_recent_tweets` call for one brand: a raised
exception, or a response carrying `data` (empty list models falsy
`response.data`) and the `includes['users']` table. -/
inductive SearchResult
  | err (e : FetchErr)
  | ok (data : List RawTweet) (users : List UserRec)
deriving DecidableEq, Repr

/-- External outcomes seen by the failsafe path for one brand:
`get_user_id_by_username` (catches internally, `none` on failure),
`get_tweets_by_user_id` (catches internally, `none` on failure; `some []`
models falsy `.data`), and the `get_user(id=...)` info lookup. -/
structure FailsafeEnv where
  userId : Option Nat
  userTweets : Option (List RawTweet)
  userInfo : Option UserRec
deriving DecidableEq, Repr

/-- The primary-result loop (twitter_monitor.py lines 137-149): items appended
to `all_tweets` before a `KeyError` from `users[tweet.author_id]`, and whether
such a `KeyError` was raised (ending the loop and jumping to the `except`
handler). -/
def processData (users : List UserRec) : List RawTweet → List Item × Bool
  | [] => ([], false)
  | t :: ts =>
    match lookupUser users t.authorId with
    | none => ([], true)
    | some u =>
      let r := processData users ts
      (mkItem u t :: r.1, r.2)

/-- The failsafe body (twitter_monitor.py lines 154-179 and 186-211): items it
appends. Empty when the user id cannot be resolved, the timeline fetch fails
or is empty, or the user-info lookup has no data. -/
def runFailsafe (fe : FailsafeEnv) : List Item :=
  match fe.userId with
  | none => []
  | some _ =>
    match fe.userTweets with
    | none => []
    | some [] => []
    | some ts =>
      match fe.userInfo with
      | none => []
      | some u => ts.map (mkItem u)

/-- The external world for one brand inside the per-brand loop. -/
structure BrandEnv where
  primary : SearchResult
  failsafe : FailsafeEnv
deriving DecidableEq, Repr

/-- What one iteration of the brand loop produced: the items appended to
`all_tweets`, and whether the failsafe path was attempted. -/
structure BrandOutcome where
  items : List Item
  fallbackAttempted : Bool
deriving DecidableEq, Repr

/-- One iteration of the loop over `BRANDS_TO_MONITOR`
(twitter_monitor.py lines 114-214). A primary exception (throttling included)
lands in the `except Exception` handler, which attempts the failsafe and then
`continue`s; empty primary data leaves `tweets_found` false and runs the
failsafe inside the `try`; nonempty data with a `KeyError` during author
lookup keeps the items appended so far and jumps to the handler's failsafe. -/
def pollBrand (env : BrandEnv) : BrandOutcome :=
  match env.primary with
  | .err _ => ⟨runFailsafe env.failsafe, true⟩
  | .ok [] _ => ⟨runFailsafe env.failsafe, true⟩
  | .ok data users =>
    let r := processData users data
    if r.2 then ⟨r.1 ++ runFailsafe env.failsafe, true⟩
    else ⟨r.1, false⟩

/-- `all_tweets` accumulated across the whole brand loop. -/
def itemsOfEnvs (envs : List BrandEnv) : List Item :=
  envs.foldr (fun e acc => (pollBrand e).items ++ acc) []

/-- Insertion step for the final `sorted(all_tweets, key=created_at)`. -/
def insertByCreated (x : Item) : List Item → List Item
  | [] => [x]
  | y :: ys =>
    if y.createdAt ≤ x.createdAt then y :: insertByCreated x ys
    else x :: y :: ys

/-- `sorted(all_tweets, key=lambda x: x['created_at'])` modelled as insertion
sort; the claims below use only membership, never tie order. -/
def sortByCreated : List Item → List Item
  | [] => []
  | x :: xs => insertByCreated x (sortByCreated xs)

/-- `get_recent_tweets_from_brands` (twitter_monitor.py lines 106-216), with
the per-brand external outcomes supplied as `envs`. -/
def get_recent_tweets_from_brands (envs : List BrandEnv) : List Item :=
  sortByCreated (itemsOfEnvs envs)

/-! ## twitter_monitor.py: the monitoring cycle -/

/-- The highest-id update (twitter_monitor.py lines 318-321):
`if not highest_tweet_id or int(tweet_id_str) > int(highest_tweet_id)`. -/
def updHighest (hi : Option String) (idStr : String) : Option String :=
  match hi with
  | none => some idStr
  | some h => if strToNat h < strToNat idStr then some idStr else some h

/-- The per-item loop of `run_monitoring_cycle` (lines 309-324): calls the
sink, tracks the numerically highest id. A sink exception propagates (there is
no `try`/`except` around `send_webhook_notification`), aborting the loop.
Returns (items for which a sink call was made, final `highest_tweet_id`,
whether an exception was raised). -/
def dispatchLoop (sink : Item → Except Unit Bool) :
    List Item → Option String → List Item × Option String × Bool
  | [], hi => ([], hi, false)
  | t :: ts, hi =>
    match sink t with
    | .error _ => ([t], hi, true)
    | .ok _ =>
      let r := dispatchLoop sink ts (updHighest hi t.id)
      (t :: r.1, r.2)

/-- Result of one monitoring cycle: the items for which a sink call was made,
the id written by `save_last_tweet_id` (`none` = file not written), and
whether the cycle ended by a propagating exception. -/
structure CycleResult where
  attempted : List Item
  savedId : Option String
  raised : Bool
deriving DecidableEq, Repr

/-- `run_monitoring_cycle` (twitter_monitor.py lines 293-331), downstream of
the fetch: empty `recent_tweets` returns without touching the watermark;
otherwise each item is dispatched, and `save_last_tweet_id(highest)` runs only
if the loop completes with a truthy highest id. -/
def run_monitoring_cycle (sink : Item → Except Unit Bool)
    (recent : List Item) : CycleResult :=
  match recent with
  | [] => ⟨[], none, false⟩
  | _ :: _ =>
    let r := dispatchLoop sink recent none
    if r.2.2 then ⟨r.1, none, true⟩
    else ⟨r.1, r.2.1, false⟩

/-- The upstream `since_id` contract: both `search_recent_tweets` and
`get_users_tweets` are passed `since_id` (twitter_monitor.py lines 127-128 and
96-97) and the API returns only tweets whose id is numerically greater than
it. `sinceFilter` applies that contract to the items available upstream. -/
def sinceFilter (lastSeen : Option String) (avail : List Item) : List Item :=
  match lastSeen with
  | none => avail
  | some s => avail.filter (fun t => strToNat s < strToNat t.id)

/-! ## free_tier_bot.py: search, pacing and the free-tier cycle

Timestamps are modelled as natural numbers of seconds; the Python check
`time_since < self.rate_limit_minutes`, with `time_since` in fractional
minutes, is `now - last < 16 * 60` over seconds. -/

/-- `self.monthly_limit` (free_tier_bot.py line 30). -/
def monthly_limit : Nat := 100

/-- `self.rate_limit_minutes` (free_tier_bot.py line 31). -/
def rate_limit_minutes : Nat := 16

/-- A tweet from `search_recent_tweets` in the free-tier bot. -/
structure FTweet where
  id : Nat
  text : String
  authorId : Nat
  createdAt : Nat
deriving DecidableEq, Repr

/-- A user from `response.includes['users']` in the free-tier bot. -/
structure FUser where
  id : Nat
  username : String
deriving DecidableEq, Repr

/-- A tweet dict as built by `smart_tweet_search`
(free_tier_bot.py lines 138-144). -/
structure FTItem where
  text : String
  url : String
  author : String
  username : String
  createdAt : Nat
deriving DecidableEq, Repr

/-- The dict built by `{user.id: user for user in response.includes['users']}`,
queried with `.get`. -/
def lookupFUser (users : List FUser) (authorId : Nat) : Option FUser :=
  users.find? (fun u => u.id == authorId)

/-- One appended dict (free_tier_bot.py lines 134-144):
`username = user.username if user else 'unknown'` — an unresolved author gets
the placeholder `"unknown"` and the item is kept. -/
def mkFTItem (users : List FUser) (t : FTweet) : FTItem :=
  let username :=
    match lookupFUser users t.authorId with
    | some u => u.username
    | none => "unknown"
  { text := t.text
    url := "https://twitter.com/" ++ username ++ "/status/" ++ toString t.id
    author := username
    username := username
    createdAt := t.createdAt }

/-- Outcome of the single `search_recent_tweets` call of a free-tier cycle:
`tweepy.TooManyRequests`, another exception, or a response (empty `data`
models falsy `response.data`). -/
inductive SearchOutcome
  | throttled
  | exn
  | ok (data : List FTweet) (users : List FUser)
deriving Repr

/-- Return value of `smart_tweet_search`: a tweet list, or one of the two
sentinel strings `"RATE_LIMITED"` / `"ERROR"`. -/
inductive SearchReturn
  | tweets (ts : List FTItem)
  | rateLimited
  | error
deriving DecidableEq, Repr

/-- The three files the free-tier bot owns: `monthly_usage.txt`,
`last_request_time.txt` (`none` = absent, `FileNotFoundError` on read) and
`last_check.txt`. -/
structure FTFiles where
  usage : StoredUsage
  lastRequest : Option Nat
  lastCheck : Option Nat
deriving DecidableEq, Repr

/-- The external world for one free-tier cycle: the current time, the current
calendar month string, and the outcome of the search call. -/
structure FTEnv where
  now : Nat
  currentMonth : String
  outcome : SearchOutcome

/-- `smart_tweet_search` (free_tier_bot.py lines 106-160). In the success
branch `save_usage` and `save_request_time` run only inside
`if response.data:` — an empty result returns `[]` with no file written. A
`TooManyRequests` exception records the request time and returns
`"RATE_LIMITED"`; any other exception (including a `json` error raised out of
`save_usage`) is caught by the generic handler and returns `"ERROR"` with no
file written. -/
def smart_tweet_search (env : FTEnv) (fs : FTFiles) :
    SearchReturn × FTFiles :=
  match env.outcome with
  | .throttled => (.rateLimited, { fs with lastRequest := some env.now })
  | .exn => (.error, fs)
  | .ok [] _ => (.tweets [], fs)
  | .ok data users =>
    let ts := data.map (mkFTItem users)
    match save_usage fs.usage env.currentMonth ts.length with
    | .error _ => (.error, fs)
    | .ok u => (.tweets ts, { fs with usage := u, lastRequest := some env.now })

/-- `can_make_request` (free_tier_bot.py lines 61-85): denies when the monthly
usage has reached the limit, then when the last request is less than
`rate_limit_minutes` ago; an unreadable usage file raises through
`get_monthly_usage`. -/
def can_make_request (env : FTEnv) (fs : FTFiles) :
    Except Unit (Bool × String) :=
  match get_monthly_usage fs.usage env.currentMonth with
  | .error e => .error e
  | .ok d =>
    if monthly_limit ≤ d.usage then .ok (false, "Monthly limit reached")
    else
      match fs.lastRequest with
      | some t =>
        if env.now - t < rate_limit_minutes * 60 then .ok (false, "Rate limited")
        else .ok (true, "OK to proceed")
      | none => .ok (true, "OK to proceed")

/-- Result of one free-tier cycle: the returned status string, the final file
state, the items for which a webhook send was attempted, and the sink results
in order. -/
structure FTRun where
  result : String
  files : FTFiles
  attempted : List FTItem
  sinkResults : List (Except Unit Bool)

/-- `run_free_tier_monitoring` (free_tier_bot.py lines 183-235). The delivery
loop wraps each send in its own `try`/`except`, so every item is attempted
regardless of earlier sink failures or exceptions, and `save_last_check_time`
runs after the loop unconditionally. An exception out of `can_make_request`
propagates (no handler in this function). -/
def run_free_tier_monitoring (env : FTEnv) (sink : FTItem → Except Unit Bool)
    (fs : FTFiles) : Except Unit FTRun :=
  match can_make_request env fs with
  | .error e => .error e
  | .ok (can, msg) =>
    if !can then .ok ⟨msg, fs, [], []⟩
    else
      match smart_tweet_search env fs with
      | (.rateLimited, fs1) => .ok ⟨"RATE_LIMITED", fs1, [], []⟩
      | (.error, fs1) => .ok ⟨"ERROR", fs1, [], []⟩
      | (.tweets [], fs1) =>
        .ok ⟨"NO_TWEETS", { fs1 with lastCheck := some env.now }, [], []⟩
      | (.tweets ts, fs1) =>
        .ok ⟨"SUCCESS", { fs1 with lastCheck := some env.now }, ts,
             ts.map sink⟩

/-! ## Backoff controller (spec §4.5) -/

/-- Modelled from the spec: the repository's src/ contains no Backoff
Controller (no exponential backoff appears in any source file; the closest
code is tweepy's own `wait_on_rate_limit=True` flag). §4.5 specifies
`onThrottled()` incrementing `consecutiveFailures` with un-jittered base delay
`min(base^consecutiveFailures, capMinutes)` minutes, and `onSuccess()`
resetting the counter. The jitter multiplier is outside the un-jittered
delays the claim is about. -/
structure BackoffState where
  consecutiveFailures : Nat
deriving DecidableEq, Repr

/-- Modelled from the spec: un-jittered delay in minutes for a given
consecutive-failure count, base 2, cap `capMinutes`. -/
def baseDelay (capMinutes : Nat) (n : Nat) : Nat :=
  min (2 ^ n) capMinutes

/-- Modelled from the spec: `onThrottled()` increments the counter and yields
the new un-jittered delay with cap 15 minutes. -/
def onThrottled (st : BackoffState) : BackoffState × Nat :=
  (⟨st.consecutiveFailures + 1⟩, baseDelay 15 (st.consecutiveFailures + 1))

/-- Modelled from the spec: `onSuccess()` resets `consecutiveFailures` to 0. -/
def onSuccess (_ : BackoffState) : BackoffState :=
  ⟨0⟩

/-- State after `k` consecutive throttles starting from a fresh controller. -/
def throttleIter : Nat → BackoffState
  | 0 => ⟨0⟩
  | k + 1 => (onThrottled (throttleIter k)).1

/-- Un-jittered delay produced by the `n`-th consecutive throttle (1-based). -/
def nthDelay (n : Nat) : Nat :=
  (onThrottled (throttleIter (n - 1))).2

/-! ## Helper lemmas -/

theorem itemsOfEnvs_nil : itemsOfEnvs [] = [] := rfl

theorem itemsOfEnvs_cons (e : BrandEnv) (l : List BrandEnv) :
    itemsOfEnvs (e :: l) = (pollBrand e).items ++ itemsOfEnvs l := rfl

theorem itemsOfEnvs_append (l₁ l₂ : List BrandEnv) :
    itemsOfEnvs (l₁ ++ l₂) = itemsOfEnvs l₁ ++ itemsOfEnvs l₂ := by
  induction l₁ with
  | nil => simp [itemsOfEnvs_nil]
  | cons e es ih =>
    simp [itemsOfEnvs_cons, ih, List.append_assoc]

theorem mem_insertByCreated (a x : Item) :
    ∀ l : List Item, a ∈ insertByCreated x l ↔ a = x ∨ a ∈ l
  | [] => by simp [insertByCreated]
  | y :: ys => by
    simp only [insertByCreated]
    split
    · rw [List.mem_cons, mem_insertByCreated a x ys, List.mem_cons]
      tauto
    · exact List.mem_cons

theorem mem_sortByCreated (a : Item) :
    ∀ l : List Item, a ∈ sortByCreated l ↔ a ∈ l
  | [] => Iff.rfl
  | x :: xs => by
    rw [sortByCreated, mem_insertByCreated a x (sortByCreated xs),
      mem_sortByCreated a xs, List.mem_cons]

theorem le_foldl_max : ∀ (l : List Nat) (i : Nat), i ≤ l.foldl max i
  | [], i => le_refl i
  | a :: l, i => le_trans (Nat.le_max_left i a) (le_foldl_max l (max i a))

theorem mem_le_foldl_max : ∀ (l : List Nat) (i a : Nat), a ∈ l → a ≤ l.foldl max i
  | [], _, _, h => absurd h (List.not_mem_nil _)
  | b :: l, i, a, h => by
    rcases List.mem_cons.mp h with rfl | h'
    · exact le_trans (Nat.le_max_right i a) (le_foldl_max l (max i a))
    · exact mem_le_foldl_max l (max i b) a h'

/-- The final value of `highest_tweet_id` over a list of items. -/
def foldlHighest (hi : Option String) (l : List Item) : Option String :=
  l.foldl (fun h t => updHighest h t.id) hi

/-- Numeric values of the id strings of a list of items. -/
def idVals (l : List Item) : List Nat :=
  l.map (fun t => strToNat t.id)

theorem foldlHighest_some :
    ∀ (l : List Item) (h : String),
      ∃ s, foldlHighest (some h) l = some s ∧
        strToNat s = (idVals l).foldl max (strToNat h)
  | [], h => ⟨h, rfl, rfl⟩
  | t :: ts, h => by
    have hstep : foldlHighest (some h) (t :: ts) =
        foldlHighest (updHighest (some h) t.id) ts := rfl
    have hvals : (idVals (t :: ts)).foldl max (strToNat h) =
        (idVals ts).foldl max (max (strToNat h) (strToNat t.id)) := rfl
    by_cases hlt : strToNat h < strToNat t.id
    · obtain ⟨s, hs, hv⟩ := foldlHighest_some ts t.id
      refine ⟨s, ?_, ?_⟩
      · rw [hstep]
        simpa [updHighest, if_pos hlt] using hs
      · rw [hvals, Nat.max_eq_right (le_of_lt hlt)]
        exact hv
    · obtain ⟨s, hs, hv⟩ := foldlHighest_some ts h
      refine ⟨s, ?_, ?_⟩
      · rw [hstep]
        simpa [updHighest, if_neg hlt] using hs
      · rw [hvals, Nat.max_eq_left (Nat.le_of_not_lt hlt)]
        exact hv

theorem dispatchLoop_ok (bsink : Item → Bool) :
    ∀ (l : List Item) (hi : Option String),
      dispatchLoop (fun t => Except.ok (bsink t)) l hi =
        (l, foldlHighest hi l, false)
  | [], _ => rfl
  | t :: ts, hi => by
    show (t :: (dispatchLoop _ ts (updHighest hi t.id)).1,
        (dispatchLoop _ ts (updHighest hi t.id)).2) = _
    rw [dispatchLoop_ok bsink ts (updHighest hi t.id)]
    rfl

theorem run_monitoring_cycle_ok (bsink : Item → Bool) (recent : List Item) :
    run_monitoring_cycle (fun t => Except.ok (bsink t)) recent =
      ⟨recent, foldlHighest none recent, false⟩ := by
  cases recent with
  | nil => rfl
  | cons t ts =>
    show (let r := dispatchLoop _ (t :: ts) none
      if r.2.2 then CycleResult.mk r.1 none true else ⟨r.1, r.2.1, false⟩) = _
    rw [dispatchLoop_ok bsink (t :: ts) none]
    rfl

theorem processData_not_raised (users : List UserRec) :
    ∀ data : List RawTweet,
      (processData users data).2 = false ↔
        ∀ t ∈ data, (lookupUser users t.authorId).isSome = true
  | [] => by simp [processData]
  | t :: ts => by
    cases h : lookupUser users t.authorId with
    | none => simp [processData, h]
    | some u =>
      simp [processData, h, processData_not_raised users ts]

theorem processData_mem (users : List UserRec) :
    ∀ (data : List RawTweet), ∀ it ∈ (processData users data).1,
      ∃ t ∈ data, ∃ u, lookupUser users t.authorId = some u ∧ it = mkItem u t
  | [], it, h => absurd h (List.not_mem_nil _)
  | t :: ts, it, h => by
    cases hu : lookupUser users t.authorId with
    | none =>
      rw [processData, hu] at h
      exact absurd h (List.not_mem_nil _)
    | some u =>
      rw [processData, hu] at h
      rcases List.mem_cons.mp h with rfl | h'
      · exact ⟨t, List.mem_cons_self t ts, u, hu, rfl⟩
      · obtain ⟨t', ht', u', hu', he⟩ := processData_mem users ts it h'
        exact ⟨t', List.mem_cons_of_mem t ht', u', hu', he⟩

theorem save_usage_ok (stored : StoredUsage) (cm : String) (n : Nat)
    (h : stored ≠ .malformed) :
    ∃ u, save_usage stored cm n = .ok u := by
  cases stored with
  | absent => exact ⟨.record cm n, by simp [save_usage, get_monthly_usage, Except.map]⟩
  | malformed => exact absurd rfl h
  | record m u =>
    by_cases hm : m ≠ cm
    · exact ⟨.record cm n, by simp [save_usage, get_monthly_usage, if_pos hm, Except.map]⟩
    · exact ⟨.record m (u + n), by simp [save_usage, get_monthly_usage, if_neg hm, Except.map]⟩

/-! ## Concrete inputs used by counterexamples and witnesses -/

def cUser1 : UserRec := ⟨1, "brandone", "Brand One", "img1"⟩

def cUser3 : UserRec := ⟨3, "brandthree", "Brand Three", "img3"⟩

def cTweet1 : RawTweet := ⟨"11", "first tweet", 1, 10, 0, 0⟩

def cTweet3 : RawTweet := ⟨"33", "third tweet", 3, 30, 0, 0⟩

/-- A failsafe environment in which every failsafe lookup fails. -/
def cNoFailsafe : FailsafeEnv := ⟨none, none, none⟩

def cEnvA : BrandEnv := ⟨.ok [cTweet1] [cUser1], cNoFailsafe⟩

/-- A brand whose primary search raises `tweepy.TooManyRequests`. -/
def cEnvB : BrandEnv := ⟨.err .throttled, cNoFailsafe⟩

def cEnvC : BrandEnv := ⟨.ok [cTweet3] [cUser3], cNoFailsafe⟩

/-! ## Claim C1 -/

/-- Claim C1, counterexample: with three tracked sources where source 2 raises
the throttling signal, the poller still continues to source 3 — source 3's
item is fetched and appears in the cycle's aggregated result, contradicting
"the poller does not continue to the remaining sources in that cycle". -/
theorem c1_counterexample :
    cEnvB.primary = SearchResult.err FetchErr.throttled ∧
    mkItem cUser3 cTweet3 ∈ get_recent_tweets_from_brands [cEnvA, cEnvB, cEnvC] :=
  ⟨rfl, by decide⟩

/-- Claim C1, amended: in the monitor path a throttling exception during one
source is handled by the generic per-source handler — the fallback is
attempted for that source and the loop continues, so items of every other
source (earlier and later) still reach the aggregated result; no pacing is
recorded there. In the free-tier path, where the cycle makes a single combined
request, a throttling signal records the pacing attempt and ends the cycle
with result `RATE_LIMITED` and no deliveries. -/
theorem c1_throttle_handling (pre post : List BrandEnv) (envT : BrandEnv)
    (hT : envT.primary = SearchResult.err FetchErr.throttled)
    (e : FTEnv) (fs : FTFiles) (hE : e.outcome = SearchOutcome.throttled) :
    (∀ it, it ∈ itemsOfEnvs (pre ++ post) →
        it ∈ get_recent_tweets_from_brands (pre ++ envT :: post))
    ∧ (pollBrand envT).fallbackAttempted = true
    ∧ smart_tweet_search e fs =
        (SearchReturn.rateLimited, { fs with lastRequest := some e.now })
    ∧ (∀ sink, can_make_request e fs = .ok (true, "OK to proceed") →
        run_free_tier_monitoring e sink fs =
          .ok ⟨"RATE_LIMITED", { fs with lastRequest := some e.now }, [], []⟩) := by
  obtain ⟨prim, fsv⟩ := envT
  have hT' : prim = SearchResult.err FetchErr.throttled := hT
  subst hT'
  obtain ⟨now, cm, outc⟩ := e
  have hE' : outc = SearchOutcome.throttled := hE
  subst hE'
  refine ⟨?_, rfl, rfl, ?_⟩
  · intro it hmem
    rw [get_recent_tweets_from_brands, mem_sortByCreated, itemsOfEnvs_append,
      itemsOfEnvs_cons]
    rw [itemsOfEnvs_append] at hmem
    rcases List.mem_append.mp hmem with h | h
    · exact List.mem_append.mpr (Or.inl h)
    · exact List.mem_append.mpr (Or.inr (List.mem_append.mpr (Or.inr h)))
  · intro sink hcan
    simp [run_free_tier_monitoring, hcan, smart_tweet_search]

/-- Claim C1, witness for the amended theorem at concrete inputs. -/
theorem c1_witness :
    mkItem cUser1 cTweet1 ∈ get_recent_tweets_from_brands [cEnvA, cEnvB, cEnvC] ∧
    smart_tweet_search ⟨100, "2024-05", SearchOutcome.throttled⟩
        ⟨.absent, none, none⟩ =
      (SearchReturn.rateLimited, ⟨.absent, some 100, none⟩) := by
  have h := c1_throttle_handling [cEnvA] [cEnvC] cEnvB rfl
    ⟨100, "2024-05", SearchOutcome.throttled⟩ ⟨.absent, none, none⟩ rfl
  exact ⟨h.1 (mkItem cUser1 cTweet1) (by decide), h.2.2.1⟩

/-! ## Claim C2 -/

/-- Claim C2 is a code bug: the spec requires the pacing timestamp to be
persisted after every poll attempt, including one that finds nothing, but
`save_request_time` sits inside `if response.data:` — a successful search
returning zero tweets leaves every file untouched, so the 16-minute pacing
guard the code documents is not advanced by an empty attempt. This theorem
evaluates the embedded `smart_tweet_search` at such an attempt: the state is
returned unchanged. -/
theorem c2_empty_attempt_skips_pacing (now : Nat) (cm : String)
    (users : List FUser) (fs : FTFiles) :
    smart_tweet_search ⟨now, cm, .ok [] users⟩ fs = (SearchReturn.tweets [], fs) ∧
    (smart_tweet_search ⟨now, cm, .ok [] users⟩ fs).2.lastRequest =
      fs.lastRequest :=
  ⟨rfl, rfl⟩

/-! ## Claim C3 -/

/-- Claim C3: under the identifier-watermark discipline of the monitor path
(`since_id` passed to both retrieval calls, upstream returning only items with
numerically greater ids), an item is fetched iff its id numerically exceeds
the stored `lastSeenId`; when at least one item is fetched the persisted
watermark's numeric value equals `max(lastSeenId, max of fetched item ids)`;
when no item is fetched the watermark file is not written; and any written
watermark is numerically ≥ the stored one. Comparisons go through `strToNat`,
the numeric (not lexicographic) reading of the id strings, exactly as
`int(tweet_id_str) > int(highest_tweet_id)` does. -/
theorem c3_identifier_watermark (lastSeen : String) (avail : List Item)
    (bsink : Item → Bool) :
    (∀ t : Item, t ∈ sinceFilter (some lastSeen) avail ↔
        t ∈ avail ∧ strToNat lastSeen < strToNat t.id)
    ∧ (sinceFilter (some lastSeen) avail ≠ [] →
        ∃ s, (run_monitoring_cycle (fun t => Except.ok (bsink t))
            (sinceFilter (some lastSeen) avail)).savedId = some s ∧
          strToNat s =
            max (strToNat lastSeen)
              ((idVals (sinceFilter (some lastSeen) avail)).foldl max 0))
    ∧ (sinceFilter (some lastSeen) avail = [] →
        (run_monitoring_cycle (fun t => Except.ok (bsink t))
            (sinceFilter (some lastSeen) avail)).savedId = none)
    ∧ (∀ s, (run_monitoring_cycle (fun t => Except.ok (bsink t))
            (sinceFilter (some lastSeen) avail)).savedId = some s →
        strToNat lastSeen ≤ strToNat s) := by
  refine ⟨?_, ?_, ?_, ?_⟩
  · intro t
    show t ∈ avail.filter (fun x => decide (strToNat lastSeen < strToNat x.id)) ↔ _
    simp [List.mem_filter]
  · intro hne
    cases hfe : sinceFilter (some lastSeen) avail with
    | nil => exact absurd hfe hne
    | cons t ts =>
      rw [run_monitoring_cycle_ok]
      obtain ⟨s, hs, hv⟩ := foldlHighest_some ts t.id
      refine ⟨s, ?_, ?_⟩
      · show foldlHighest none (t :: ts) = some s
        exact hs
      · have hmem : t ∈ avail.filter
            (fun x => decide (strToNat lastSeen < strToNat x.id)) := by
          have : t ∈ sinceFilter (some lastSeen) avail := by
            rw [hfe]; exact List.mem_cons_self t ts
          exact this
        have hlt : strToNat lastSeen < strToNat t.id := by
          simpa using List.of_mem_filter hmem
        have hzero : (idVals (t :: ts)).foldl max 0 =
            (idVals ts).foldl max (strToNat t.id) := by
          show (idVals ts).foldl max (max 0 (strToNat t.id)) = _
          rw [Nat.zero_max]
        have hle : strToNat lastSeen ≤ strToNat s := by
          rw [hv]
          exact le_trans (le_of_lt hlt) (le_foldl_max (idVals ts) (strToNat t.id))
        rw [hzero, ← hv, Nat.max_eq_right hle]
  · intro hfe
    rw [hfe]
    rfl
  · intro s hs
    cases hfe : sinceFilter (some lastSeen) avail with
    | nil =>
      rw [hfe, run_monitoring_cycle_ok] at hs
      exact absurd hs (by simp [foldlHighest])
    | cons t ts =>
      rw [hfe, run_monitoring_cycle_ok] at hs
      have hs2 : foldlHighest (some t.id) ts = some s := hs
      obtain ⟨s', hs', hv'⟩ := foldlHighest_some ts t.id
      rw [hs'] at hs2
      injection hs2 with hss
      subst hss
      have hmem : t ∈ avail.filter
          (fun x => decide (strToNat lastSeen < strToNat x.id)) := by
        have : t ∈ sinceFilter (some lastSeen) avail := by
          rw [hfe]; exact List.mem_cons_self t ts
        exact this
      have hlt : strToNat lastSeen < strToNat t.id := by
        simpa using List.of_mem_filter hmem
      rw [hv']
      exact le_trans (le_of_lt hlt) (le_foldl_max (idVals ts) (strToNat t.id))

/-- The spec's dedup example: items available upstream with ids 95, 101, 102
against a stored watermark of 100. -/
def cAvail : List Item :=
  [⟨"95", "t95", "u95", "a95", "un95", 95, "p", 0, 0⟩,
   ⟨"101", "t101", "u101", "a101", "un101", 101, "p", 0, 0⟩,
   ⟨"102", "t102", "u102", "a102", "un102", 102, "p", 0, 0⟩]

/-- Claim C3, witness: the watermark theorem applied to the spec's example
(`lastSeenId = 100`, upstream ids 95, 101, 102). -/
theorem c3_witness :
    ∃ s, (run_monitoring_cycle (fun t => Except.ok ((fun _ => true) t))
        (sinceFilter (some "100") cAvail)).savedId = some s ∧
      strToNat s =
        max (strToNat "100")
          ((idVals (sinceFilter (some "100") cAvail)).foldl max 0) :=
  (c3_identifier_watermark "100" cAvail (fun _ => true)).2.1 (by decide)

/-! ## Claim C4 -/

theorem throttleIter_eq : ∀ n : Nat, throttleIter n = ⟨n⟩
  | 0 => rfl
  | n + 1 => by rw [throttleIter, throttleIter_eq n]; rfl

/-- Claim C4: the (spec-modelled) backoff controller's un-jittered delay on
the `n`-th consecutive throttle is `min(2^n, 15)` minutes; attempts 1..5 give
2, 4, 8, 15, 15; a success resets the counter so the next throttle yields 2
again. -/
theorem c4_backoff_delays :
    ([nthDelay 1, nthDelay 2, nthDelay 3, nthDelay 4, nthDelay 5] =
        [2, 4, 8, 15, 15])
    ∧ (∀ n : Nat, nthDelay (n + 1) = min (2 ^ (n + 1)) 15)
    ∧ (∀ st : BackoffState,
        onSuccess st = ⟨0⟩ ∧ (onThrottled (onSuccess st)).2 = 2) := by
  refine ⟨by decide, ?_, fun st => ⟨rfl, rfl⟩⟩
  intro n
  rw [nthDelay, Nat.add_sub_cancel, throttleIter_eq]
  rfl

/-! ## Claim C6 -/

/-- Claim C6: when the stored period key differs from the current month,
loading the quota yields a reset record `{month: current, usage: 0}` whatever
the prior count was, and a subsequent `save_usage` persists counts accumulated
from that reset state. -/
theorem c6_month_rollover (m current : String) (u n : Nat) (h : m ≠ current) :
    get_monthly_usage (.record m u) current = .ok ⟨current, 0⟩ ∧
    save_usage (.record m u) current n = .ok (.record current n) := by
  constructor
  · simp [get_monthly_usage, if_pos h]
  · simp [save_usage, get_monthly_usage, if_pos h, Except.map]

/-- Claim C6, witness: a concrete month rollover discarding a prior count of
57 and then committing 3 freshly read items. -/
theorem c6_witness :
    get_monthly_usage (.record "2024-04" 57) "2024-05" = .ok ⟨"2024-05", 0⟩ ∧
    save_usage (.record "2024-04" 57) "2024-05" 3 = .ok (.record "2024-05" 3) :=
  c6_month_rollover "2024-04" "2024-05" 57 3 (by decide)

/-! ## Claim C7 -/

/-- Claim C7, counterexample: the quota load does not fail open on corrupt
content — `get_monthly_usage` catches only `FileNotFoundError`, so a file that
exists but cannot be parsed raises instead of being treated as
`{month: current, usage: 0}`. -/
theorem c7_counterexample :
    get_monthly_usage .malformed "2024-05" = .error () ∧
    get_monthly_usage .malformed "2024-05" ≠ .ok ⟨"2024-05", 0⟩ :=
  ⟨rfl, fun h => Except.noConfusion h⟩

/-- Claim C7, amended: only an absent quota file is treated as
`{month: current, usage: 0}`; corrupt (unparsable) content raises out of the
load. -/
theorem c7_absent_fails_open (m : String) :
    get_monthly_usage .absent m = .ok ⟨m, 0⟩ ∧
    get_monthly_usage .malformed m = .error () :=
  ⟨rfl, rfl⟩

/-! ## Claim C5 -/

/-- A primary response carrying one tweet whose author is absent from the
`includes['users']` table. -/
def cOrphanTweet : RawTweet := ⟨"55", "orphan", 9, 50, 0, 0⟩

def cEnvOrphan : BrandEnv := ⟨.ok [cOrphanTweet] [], cNoFailsafe⟩

/-- Claim C5, counterexample: the primary search returns one item, yet the
fallback is still attempted — the author lookup `users[tweet.author_id]`
raises `KeyError` and the `except` handler runs the failsafe, contradicting
"not attempted when the primary search returns at least one item". -/
theorem c5_counterexample :
    cEnvOrphan.primary = SearchResult.ok [cOrphanTweet] [] ∧
    [cOrphanTweet] ≠ ([] : List RawTweet) ∧
    (pollBrand cEnvOrphan).fallbackAttempted = true :=
  ⟨rfl, by decide, rfl⟩

/-- Claim C5, amended: per source, the fallback fetch is skipped exactly when
the primary search succeeds with at least one item all of whose authors
resolve from the lookup table; it is attempted when the primary raises, when
it returns zero items, and also when it returns items but some author is
missing from the table (the `KeyError` lands in the same handler as a primary
error). -/
theorem c5_fallback_iff (env : BrandEnv) :
    (pollBrand env).fallbackAttempted = false ↔
      ∃ data users, env.primary = SearchResult.ok data users ∧ data ≠ [] ∧
        ∀ t ∈ data, (lookupUser users t.authorId).isSome = true := by
  obtain ⟨prim, fsv⟩ := env
  cases prim with
  | err e => simp [pollBrand]
  | ok data users =>
    cases data with
    | nil => simp [pollBrand]
    | cons t ts =>
      have hpoll : pollBrand ⟨.ok (t :: ts) users, fsv⟩ =
          (if (processData users (t :: ts)).2 then
            ⟨(processData users (t :: ts)).1 ++ runFailsafe fsv, true⟩
          else ⟨(processData users (t :: ts)).1, false⟩) := rfl
      cases hr : (processData users (t :: ts)).2 with
      | false =>
        constructor
        · intro _
          exact ⟨t :: ts, users, rfl, List.cons_ne_nil t ts,
            (processData_not_raised users (t :: ts)).mp hr⟩
        · intro _
          rw [hpoll, hr]
          rfl
      | true =>
        constructor
        · intro hfa
          rw [hpoll, hr] at hfa
          exact absurd hfa (by simp)
        · rintro ⟨data', users', heq, hne, hall⟩
          injection heq with hd hu
          subst hd
          subst hu
          have hfalse := (processData_not_raised users (t :: ts)).mpr hall
          rw [hr] at hfalse
          exact absurd hfalse (by simp)

/-! ## Claim C8 -/

/-- A free-tier tweet whose author id 9 has no entry in the user table. -/
def cFTweetOrphan : FTweet := ⟨77, "orphan tweet", 9, 70⟩

def cFTEnvOrphan : FTEnv := ⟨100, "2024-05", .ok [cFTweetOrphan] []⟩

/-- Fresh file state: no quota file, no pacing file, no cursor file. -/
def cFTFiles0 : FTFiles := ⟨.absent, none, none⟩

/-- Claim C8, counterexample: in the free-tier primary path an item whose
author cannot be resolved is not dropped — `users.get` misses, the username
falls back to the placeholder `'unknown'`, the item is returned by the search
and the cycle attempts webhook delivery for it. -/
theorem c8_counterexample :
    lookupFUser [] cFTweetOrphan.authorId = none ∧
    (smart_tweet_search cFTEnvOrphan cFTFiles0).1 =
      SearchReturn.tweets [mkFTItem [] cFTweetOrphan] ∧
    (mkFTItem [] cFTweetOrphan).username = "unknown" ∧
    (run_free_tier_monitoring cFTEnvOrphan (fun _ => Except.ok true)
        cFTFiles0).map (fun r => r.attempted) =
      Except.ok [mkFTItem [] cFTweetOrphan] :=
  ⟨rfl, rfl, rfl, rfl⟩

/-- Claim C8, amended: the two paths diverge. In the monitor path every item
handed on from the primary loop has a resolved author (an unresolved author
raises before the item is appended). In the free-tier path an item with an
unresolved author is kept and returned for delivery with the placeholder
username `'unknown'`. -/
theorem c8_unresolved_author (users : List UserRec) (data : List RawTweet)
    (fusers : List FUser) (ft : FTweet) (fdata : List FTweet)
    (e : FTEnv) (fs : FTFiles)
    (h1 : lookupFUser fusers ft.authorId = none)
    (h2 : ft ∈ fdata) (h3 : e.outcome = .ok fdata fusers)
    (h4 : fs.usage ≠ .malformed) :
    (∀ it ∈ (processData users data).1,
        ∃ t ∈ data, ∃ u, lookupUser users t.authorId = some u ∧ it = mkItem u t)
    ∧ ∃ ts, (smart_tweet_search e fs).1 = SearchReturn.tweets ts ∧
        mkFTItem fusers ft ∈ ts ∧ (mkFTItem fusers ft).username = "unknown" := by
  refine ⟨processData_mem users data, ?_⟩
  obtain ⟨now, cm, outc⟩ := e
  have h3' : outc = SearchOutcome.ok fdata fusers := h3
  subst h3'
  cases fdata with
  | nil => exact absurd h2 (List.not_mem_nil ft)
  | cons f fd =>
    obtain ⟨u, hu⟩ := save_usage_ok fs.usage cm (fd.length + 1) h4
    refine ⟨(f :: fd).map (mkFTItem fusers), ?_, ?_, ?_⟩
    · simp [smart_tweet_search, hu]
    · exact List.mem_map_of_mem (mkFTItem fusers) h2
    · simp [mkFTItem, h1]

/-- Claim C8, witness for the amended theorem at the concrete orphan tweet. -/
theorem c8_witness :
    ∃ ts, (smart_tweet_search cFTEnvOrphan cFTFiles0).1 =
        SearchReturn.tweets ts ∧
      mkFTItem [] cFTweetOrphan ∈ ts ∧
      (mkFTItem [] cFTweetOrphan).username = "unknown" :=
  (c8_unresolved_author [] [] [] cFTweetOrphan [cFTweetOrphan] cFTEnvOrphan
    cFTFiles0 rfl (List.mem_singleton.mpr rfl) rfl (by decide)).2

/-! ## Claim C9 -/

def cItemA : Item := ⟨"11", "first", "u1", "a1", "un1", 10, "p1", 0, 0⟩

def cItemB : Item := ⟨"22", "second", "u2", "a2", "un2", 20, "p2", 0, 0⟩

/-- Claim C9, counterexample: in the monitor path a sink that raises on the
first item of a two-item batch prevents the delivery attempt for the second
item and prevents the watermark write — `send_webhook_notification` is called
with no surrounding `try`/`except`, so the exception aborts the loop before
`save_last_tweet_id`. -/
theorem c9_counterexample :
    (run_monitoring_cycle (fun _ => Except.error ()) [cItemA, cItemB]).attempted
      = [cItemA] ∧
    cItemB ∉
      (run_monitoring_cycle (fun _ => Except.error ()) [cItemA, cItemB]).attempted ∧
    (run_monitoring_cycle (fun _ => Except.error ()) [cItemA, cItemB]).savedId
      = none ∧
    (run_monitoring_cycle (fun _ => Except.error ()) [cItemA, cItemB]).raised
      = true :=
  ⟨rfl, by decide, rfl, rfl⟩

/-- Free-tier concrete cycle inputs for the C9 witness: one tweet with a
resolvable author, fresh files. -/
def cFTweet9 : FTweet := ⟨5, "hello", 1, 5⟩

def cFUser9 : FUser := ⟨1, "alice"⟩

def cFTEnv9 : FTEnv := ⟨100, "2024-05", .ok [cFTweet9] [cFUser9]⟩

/-- Claim C9, amended: a sink that merely reports failure (returns `False`)
never blocks later items or the watermark advance in the monitor path, and in
the free-tier path every item of the batch is attempted and the last-check
cursor still advances whatever the sink does (each send is wrapped in its own
`try`/`except`); but only a *raising* sink in the monitor path aborts the rest
of the batch (the counterexample). -/
theorem c9_delivery_isolation (bsink : Item → Bool) (recent : List Item)
    (hne : recent ≠ [])
    (e : FTEnv) (sink : FTItem → Except Unit Bool) (fs : FTFiles)
    (fdata : List FTweet) (fusers : List FUser)
    (h3 : e.outcome = .ok fdata fusers) (hfd : fdata ≠ [])
    (hcan : can_make_request e fs = .ok (true, "OK to proceed"))
    (h4 : fs.usage ≠ .malformed) :
    ((run_monitoring_cycle (fun t => Except.ok (bsink t)) recent).attempted
        = recent
      ∧ (run_monitoring_cycle (fun t => Except.ok (bsink t)) recent).savedId.isSome
        = true
      ∧ (run_monitoring_cycle (fun t => Except.ok (bsink t)) recent).raised
        = false)
    ∧ ∃ r, run_free_tier_monitoring e sink fs = .ok r ∧
        r.result = "SUCCESS" ∧
        r.attempted = fdata.map (mkFTItem fusers) ∧
        r.files.lastCheck = some e.now := by
  constructor
  · rw [run_monitoring_cycle_ok]
    refine ⟨rfl, ?_, rfl⟩
    cases recent with
    | nil => exact absurd rfl hne
    | cons t ts =>
      obtain ⟨s, hs, _⟩ := foldlHighest_some ts t.id
      have hs2 : foldlHighest none (t :: ts) = some s := hs
      show (foldlHighest none (t :: ts)).isSome = true
      rw [hs2]
      rfl
  · obtain ⟨now, cm, outc⟩ := e
    have h3' : outc = SearchOutcome.ok fdata fusers := h3
    subst h3'
    cases fdata with
    | nil => exact absurd rfl hfd
    | cons f fd =>
      obtain ⟨u, hu⟩ := save_usage_ok fs.usage cm (fd.length + 1) h4
      have hsts : smart_tweet_search ⟨now, cm, .ok (f :: fd) fusers⟩ fs =
          (SearchReturn.tweets ((f :: fd).map (mkFTItem fusers)),
            { fs with usage := u, lastRequest := some now }) := by
        simp [smart_tweet_search, hu]
      refine ⟨⟨"SUCCESS",
        { usage := u, lastRequest := some now, lastCheck := some now },
        (f :: fd).map (mkFTItem fusers),
        ((f :: fd).map (mkFTItem fusers)).map sink⟩, ?_, rfl, rfl, rfl⟩
      simp [run_free_tier_monitoring, hcan, hsts]

/-- Claim C9, witness: the amended theorem at a concrete failing-but-not-
raising monitor sink and a concrete free-tier cycle whose sink raises on
every item. -/
theorem c9_witness :
    (run_monitoring_cycle (fun t => Except.ok ((fun _ => false) t))
        [cItemA, cItemB]).attempted = [cItemA, cItemB] ∧
    ∃ r, run_free_tier_monitoring cFTEnv9 (fun _ => Except.error ())
        cFTFiles0 = .ok r ∧
      r.result = "SUCCESS" ∧
      r.attempted = [cFTweet9].map (mkFTItem [cFUser9]) ∧
      r.files.lastCheck = some cFTEnv9.now := by
  have h := c9_delivery_isolation (fun _ => false) [cItemA, cItemB]
    (by decide) cFTEnv9 (fun _ => Except.error ()) cFTFiles0 [cFTweet9]
    [cFUser9] rfl (by decide) rfl (by decide)
  exact ⟨h.1.1, h.2⟩

/-! ## Claim C10 -/

/-- Claim C10, counterexample: the monitor's sink wrapper does not report a
transport exception as failure — `send_webhook_notification` has no
`try`/`except`, so the exception propagates instead of yielding `False`. -/
theorem c10_counterexample :
    send_webhook_notification (Except.error ()) = Except.error () ∧
    send_webhook_notification (Except.error ()) ≠ Except.ok false :=
  ⟨rfl, fun h => Except.noConfusion h⟩

/-- Claim C10, amended: both wrappers report success iff the POST returned
status exactly 204 (any other status, 200 included, is failure); the
free-tier `send_webhook` additionally converts a transport exception to
failure, while the monitor's `send_webhook_notification` propagates it. -/
theorem c10_status_204 (t : TransportResult) :
    (send_webhook t = true ↔ t = Except.ok 204)
    ∧ (send_webhook_notification t = Except.ok true ↔ t = Except.ok 204)
    ∧ (send_webhook_notification t = Except.error () ↔ t = Except.error ())
    ∧ send_webhook (Except.ok 200) = false
    ∧ send_webhook_notification (Except.ok 200) = Except.ok false
    ∧ send_webhook (Except.error ()) = false := by
  cases t with
  | ok s =>
    refine ⟨?_, ?_, ?_, rfl, rfl, rfl⟩ <;>
      simp [send_webhook, send_webhook_notification, Except.map]
  | error e =>
    cases e
    refine ⟨?_, ?_, ?_, rfl, rfl, rfl⟩ <;>
      simp [send_webhook, send_webhook_notification, Except.map]

end TwitterBot
